import Mathlib

/-!
Shallow embedding of the attribute-validation library in
src/validators/validators.py, together with proofs of the specified
properties of its validators (OneOf, NumberValidator, StringValidator,
PathValidator) and of the descriptor get/set mechanism.

Modelling choices:
* Python runtime values that can reach the validators are modelled by the
  inductive type Value: numbers (int and float modelled together as exact
  rationals, since every check only compares them with the usual order),
  strings, pathlib.Path values (carried by their textual form, since
  str(Path(s)) is the stored text), and one opaque constructor for every
  other value.
* raising an exception is modelled by Except: a validate call either
  returns .ok () (the Python function returns None) or .error e where e
  records the exception class and the data interpolated into its message.
* the filesystem seen by os.path.exists is an explicit parameter
  fs : String → Bool (the set of existing paths).
-/

namespace Validators

/-- Python values reaching the validators: numbers, strings, Path values
(identified by their text form), and an opaque constructor for any other
object. -/
inductive Value where
  | num (q : ℚ)
  | str (s : String)
  | path (p : String)
  | other
deriving DecidableEq

/-- isinstance(value, (int, float)) on the modelled values. -/
def Value.isNum : Value → Bool
  | .num _ => true
  | _ => false

/-- isinstance(value, str) on the modelled values. -/
def Value.isStr : Value → Bool
  | .str _ => true
  | _ => false

/-- the text form of a string or Path value (os.fspath / str(value));
dummy for the other constructors, on which it is never used. -/
def Value.text : Value → String
  | .str s => s
  | .path p => p
  | .num _ => ""
  | .other => ""

/-- the constraint data a ValueError message interpolates: which check
failed and the configuration it was checked against. -/
inductive Constraint where
  | oneOf (options : List Value)
  | atLeast (minvalue : ℚ)
  | noMoreThan (maxvalue : ℚ)
  | noSmallerThan (minsize : ℤ)
  | noBiggerThan (maxsize : ℤ)
  | predicateFailed
  | suffixNotIn (suffixes : List String)
deriving DecidableEq

/-- the exceptions the library raises, with the data each message carries.
recursionError models Python exhausting the call stack; it is used only by
the fuel-instrumented variant of PathValidator.validate. -/
inductive PyErr where
  | typeError (value : Value) (expected : String)
  | valueError (value : Value) (constraint : Constraint)
  | fileExistsError (value : Value)
  | attributeError (attrName : String)
  | recursionError
deriving DecidableEq

/-- OneOf: stores set(options); the set is modelled by the option list,
since only membership in it is ever used. -/
structure OneOf where
  options : List Value
deriving DecidableEq

/-- OneOf.validate: `if value not in self.options: raise ValueError(...)`. -/
def OneOf.validate (o : OneOf) (value : Value) : Except PyErr Unit :=
  if value ∉ o.options then
    .error (.valueError value (.oneOf o.options))
  else
    .ok ()

/-- NumberValidator(minvalue=None, maxvalue=None). -/
structure NumberValidator where
  minvalue : Option ℚ
  maxvalue : Option ℚ
deriving DecidableEq

/-- embeds `if self.minvalue is not None and value < self.minvalue: raise ValueError(...)`. -/
def checkMinvalue (minvalue : Option ℚ) (value : Value) (q : ℚ) : Except PyErr Unit :=
  match minvalue with
  | some m => if q < m then .error (.valueError value (.atLeast m)) else .ok ()
  | none => .ok ()

/-- embeds `if self.maxvalue is not None and value > self.maxvalue: raise ValueError(...)`. -/
def checkMaxvalue (maxvalue : Option ℚ) (value : Value) (q : ℚ) : Except PyErr Unit :=
  match maxvalue with
  | some m => if q > m then .error (.valueError value (.noMoreThan m)) else .ok ()
  | none => .ok ()

/-- NumberValidator.validate: isinstance(value, (int, float)) check raising
TypeError, then the minvalue check, then the maxvalue check. -/
def NumberValidator.validate (nv : NumberValidator) (value : Value) : Except PyErr Unit :=
  match value with
  | .num q => do
      checkMinvalue nv.minvalue (.num q) q
      checkMaxvalue nv.maxvalue (.num q) q
  | _ => .error (.typeError value "an int or float")

/-- StringValidator(minsize=None, maxsize=None, predicate=None). -/
structure StringValidator where
  minsize : Option ℤ
  maxsize : Option ℤ
  predicate : Option (String → Bool)

/-- embeds `if self.minsize is not None and len(value) < self.minsize: raise ValueError(...)`. -/
def checkMinsize (minsize : Option ℤ) (value : Value) (s : String) : Except PyErr Unit :=
  match minsize with
  | some m =>
      if (s.length : ℤ) < m then .error (.valueError value (.noSmallerThan m)) else .ok ()
  | none => .ok ()

/-- embeds `if self.maxsize is not None and len(value) > self.maxsize: raise ValueError(...)`. -/
def checkMaxsize (maxsize : Option ℤ) (value : Value) (s : String) : Except PyErr Unit :=
  match maxsize with
  | some m =>
      if (s.length : ℤ) > m then .error (.valueError value (.noBiggerThan m)) else .ok ()
  | none => .ok ()

/-- embeds `if self.predicate is not None and not self.predicate(value): raise ValueError(...)`;
the message interpolates the predicate object, which carries no data in the model. -/
def checkPredicateStr (predicate : Option (String → Bool)) (value : Value) (s : String) :
    Except PyErr Unit :=
  match predicate with
  | some p => if p s = false then .error (.valueError value .predicateFailed) else .ok ()
  | none => .ok ()

/-- StringValidator.validate: isinstance(value, str) check raising TypeError,
then minsize, maxsize and predicate checks in order. -/
def StringValidator.validate (sv : StringValidator) (value : Value) : Except PyErr Unit :=
  match value with
  | .str s => do
      checkMinsize sv.minsize (.str s) s
      checkMaxsize sv.maxsize (.str s) s
      checkPredicateStr sv.predicate (.str s) s
  | _ => .error (.typeError value "a str")

/-- PathValidator(*suffixes, predicate=None): self.suffixes = set(suffixes)
(modelled by the list of suffixes, only membership being used),
self.predicate receives the raw value (a str on the recursive call, a Path
value on the outer call). -/
structure PathValidator where
  suffixes : List String
  predicate : Option (Value → Bool)

/-- last index of the character c in s, or -1 (str.rfind as used by
os.path.splitext). -/
def rfind (s : List Char) (c : Char) : Int :=
  match (s.enum.filter (fun p => p.2 == c)).getLast? with
  | some p => (p.1 : Int)
  | none => -1

/-- the extension component of os.path.splitext (posixpath): the part of p
from its last dot on, provided that dot lies after the last slash and some
character between the last slash and that dot is not itself a dot
(so dotfiles such as ".bashrc" have no extension). -/
def splitextExt (p : String) : String :=
  let cs := p.toList
  let sepIndex := rfind cs '/'
  let dotIndex := rfind cs '.'
  if sepIndex < dotIndex ∧
      ((List.range cs.length).any fun i =>
        decide (sepIndex < (i : Int) ∧ (i : Int) < dotIndex) && (cs.getD i ' ' != '.'))
  then String.mk (cs.drop dotIndex.toNat)
  else ""

/-- embeds `if not os.path.exists(value): raise FileExistsError(...)`; fs is the
set of existing filesystem paths, probed at the text form of the value
(os.path.exists accepts str and Path alike via os.fspath). -/
def checkExists (fs : String → Bool) (value : Value) : Except PyErr Unit :=
  if fs value.text = false then .error (.fileExistsError value) else .ok ()

/-- embeds `if self.predicate is not None and not self.predicate(value): raise ValueError(...)`
for PathValidator, whose predicate receives the raw str or Path value. -/
def checkPredicatePath (predicate : Option (Value → Bool)) (value : Value) :
    Except PyErr Unit :=
  match predicate with
  | some p => if p value = false then .error (.valueError value .predicateFailed) else .ok ()
  | none => .ok ()

/-- the suffix check of PathValidator.validate. The source guards it with
`if self.suffixes is not None:`, but self.suffixes is set(suffixes), which
is never None, so the guard is always taken and only the inner
`if os.path.splitext(value)[1] not in self.suffixes: raise ValueError(...)`
remains. -/
def checkSuffixes (suffixes : List String) (value : Value) : Except PyErr Unit :=
  if splitextExt value.text ∉ suffixes then
    .error (.valueError value (.suffixNotIn suffixes))
  else
    .ok ()

/-- recursion measure for PathValidator.validate: the recursive call
replaces a Path value by its str form. -/
def Value.rank : Value → Nat
  | .path _ => 1
  | _ => 0

/-- PathValidator.validate: isinstance(value, (str, Path)) check raising
TypeError; for a Path value, the recursive call self.validate(str(value));
then the existence, predicate and suffix checks on the value itself. -/
def PathValidator.validate (pv : PathValidator) (fs : String → Bool) :
    Value → Except PyErr Unit
  | .num q => .error (.typeError (.num q) "a str or pathlib.Path type")
  | .other => .error (.typeError .other "a str or pathlib.Path type")
  | .str s => do
      checkExists fs (.str s)
      checkPredicatePath pv.predicate (.str s)
      checkSuffixes pv.suffixes (.str s)
  | .path p => do
      PathValidator.validate pv fs (.str p)
      checkExists fs (.path p)
      checkPredicatePath pv.predicate (.path p)
      checkSuffixes pv.suffixes (.path p)
termination_by v => v.rank
decreasing_by simp [Value.rank]

/-- PathValidator.validate instrumented with an explicit call-stack budget:
each nested call consumes one unit of fuel and exhausted fuel models
Python raising RecursionError. Structurally recursive on the fuel. -/
def PathValidator.validateFuel (pv : PathValidator) (fs : String → Bool) :
    Nat → Value → Except PyErr Unit
  | 0, _ => .error .recursionError
  | _ + 1, .num q => .error (.typeError (.num q) "a str or pathlib.Path type")
  | _ + 1, .other => .error (.typeError .other "a str or pathlib.Path type")
  | _ + 1, .str s => do
      checkExists fs (.str s)
      checkPredicatePath pv.predicate (.str s)
      checkSuffixes pv.suffixes (.str s)
  | n + 1, .path p => do
      PathValidator.validateFuel pv fs n (.str p)
      checkExists fs (.path p)
      checkPredicatePath pv.predicate (.path p)
      checkSuffixes pv.suffixes (.path p)

/-- Validator.__set_name__: the private backing attribute name is the field
name prefixed with an underscore. -/
def private_name (name : String) : String := "_" ++ name

/-- an instance of a containing type, seen through its attribute
dictionary: each attribute name is either bound to a value or absent. -/
def Obj : Type := String → Option Value

/-- Python setattr on the modelled attribute dictionary. -/
def setattr (obj : Obj) (attr : String) (v : Value) : Obj :=
  fun a => if a = attr then some v else obj a

/-- Validator.__get__: getattr(obj, self.private_name); reading an absent
attribute raises AttributeError, otherwise the stored value is returned
unchanged, with no validation. -/
def Validator.descrGet (name : String) (obj : Obj) : Except PyErr Value :=
  match obj (private_name name) with
  | some v => .ok v
  | none => .error (.attributeError (private_name name))

/-- Validator.__set__: self.validate(value) then
setattr(obj, self.private_name, value). The bound rule is abstracted by its
validate function. The result pairs the propagated exception (if any) with
the attribute dictionary after the call: unchanged when validate raises,
updated at the private name when it passes. -/
def Validator.descrSet (validate : Value → Except PyErr Unit) (name : String)
    (obj : Obj) (value : Value) : Option PyErr × Obj :=
  match validate value with
  | .error e => (some e, obj)
  | .ok _ => (none, setattr obj (private_name name) value)

theorem bind_ok {α β : Type} (a : α) (f : α → Except PyErr β) :
    (Except.ok a >>= f : Except PyErr β) = f a := rfl

theorem bind_err {α β : Type} (e : PyErr) (f : α → Except PyErr β) :
    (Except.error e >>= f : Except PyErr β) = .error e := rfl

/-- with any fuel of at least 2 the instrumented run of
PathValidator.validate agrees with the recursion-free total function:
the recursion bottoms out after one nested call. -/
theorem validateFuel_eq_validate (pv : PathValidator) (fs : String → Bool)
    (v : Value) (n : Nat) :
    PathValidator.validateFuel pv fs (n + 2) v = PathValidator.validate pv fs v := by
  cases v with
  | num q => simp [PathValidator.validateFuel, PathValidator.validate]
  | other => simp [PathValidator.validateFuel, PathValidator.validate]
  | str s => simp [PathValidator.validateFuel, PathValidator.validate]
  | path p => simp [PathValidator.validateFuel, PathValidator.validate]

theorem bind_eq_ok_iff (a b : Except PyErr Unit) :
    (a >>= fun _ => b) = .ok () ↔ a = .ok () ∧ b = .ok () := by
  cases a with
  | ok u => simp [bind_ok]
  | error e => simp [bind_err]

theorem bind_eq_error (a b : Except PyErr Unit) (e : PyErr)
    (h : (a >>= fun _ => b) = .error e) : a = .error e ∨ b = .error e := by
  cases a with
  | ok u => rw [bind_ok] at h; exact Or.inr h
  | error e2 => rw [bind_err] at h; exact Or.inl h

theorem checkMinvalue_ok (minvalue : Option ℚ) (value : Value) (q : ℚ) :
    checkMinvalue minvalue value q = .ok () ↔ ∀ m ∈ minvalue, m ≤ q := by
  cases minvalue with
  | none => simp [checkMinvalue]
  | some m =>
    by_cases h : q < m
    · simp [checkMinvalue, h, not_le.mpr h]
    · simp [checkMinvalue, h, not_lt.mp h]

theorem checkMaxvalue_ok (maxvalue : Option ℚ) (value : Value) (q : ℚ) :
    checkMaxvalue maxvalue value q = .ok () ↔ ∀ m ∈ maxvalue, q ≤ m := by
  cases maxvalue with
  | none => simp [checkMaxvalue]
  | some m =>
    by_cases h : q > m
    · simp [checkMaxvalue, h, not_le.mpr h]
    · simp [checkMaxvalue, h, not_lt.mp h]

theorem checkMinsize_ok (minsize : Option ℤ) (value : Value) (s : String) :
    checkMinsize minsize value s = .ok () ↔ ∀ m ∈ minsize, m ≤ (s.length : ℤ) := by
  cases minsize with
  | none => simp [checkMinsize]
  | some m =>
    by_cases h : (s.length : ℤ) < m
    · simp [checkMinsize, h, not_le.mpr h]
    · simp [checkMinsize, h, not_lt.mp h]

theorem checkMaxsize_ok (maxsize : Option ℤ) (value : Value) (s : String) :
    checkMaxsize maxsize value s = .ok () ↔ ∀ m ∈ maxsize, (s.length : ℤ) ≤ m := by
  cases maxsize with
  | none => simp [checkMaxsize]
  | some m =>
    by_cases h : (s.length : ℤ) > m
    · simp [checkMaxsize, h, not_le.mpr h]
    · simp [checkMaxsize, h, not_lt.mp h]

theorem checkPredicateStr_ok (predicate : Option (String → Bool)) (value : Value) (s : String) :
    checkPredicateStr predicate value s = .ok () ↔ ∀ p ∈ predicate, p s = true := by
  cases predicate with
  | none => simp [checkPredicateStr]
  | some p => cases hp : p s <;> simp [checkPredicateStr, hp]

/-- C5: OneOf.validate passes exactly on the members of the acceptable set;
on a non-member it fails with a ValueError carrying the rejected value and
the full acceptable set. -/
theorem oneOf_validate_spec (o : OneOf) (v : Value) :
    (OneOf.validate o v = .ok () ↔ v ∈ o.options)
    ∧ (v ∉ o.options →
        OneOf.validate o v = .error (.valueError v (.oneOf o.options))) := by
  unfold OneOf.validate
  by_cases h : v ∈ o.options <;> simp [h]

theorem oneOf_validate_spec_witness :
    OneOf.validate ⟨[Value.str "value1", Value.str "value2"]⟩ (Value.str "value4")
      = .error (.valueError (Value.str "value4")
          (.oneOf [Value.str "value1", Value.str "value2"]))
    ∧ OneOf.validate ⟨[Value.str "value1", Value.str "value2"]⟩ (Value.str "value1")
      = .ok () := by
  constructor
  · exact (oneOf_validate_spec ⟨[Value.str "value1", Value.str "value2"]⟩
      (Value.str "value4")).2 (by decide)
  · exact ((oneOf_validate_spec ⟨[Value.str "value1", Value.str "value2"]⟩
      (Value.str "value1")).1).mpr (by decide)

/-- C2: for a numeric value, NumberValidator.validate passes exactly when
the value is at least the configured minimum (if any) and at most the
configured maximum (if any), both bounds inclusive; a non-numeric value
always fails with a TypeError. -/
theorem numberValidator_validate_spec (nv : NumberValidator) (q : ℚ) (v : Value) :
    (NumberValidator.validate nv (.num q) = .ok () ↔
      (∀ m ∈ nv.minvalue, m ≤ q) ∧ (∀ m ∈ nv.maxvalue, q ≤ m))
    ∧ (v.isNum = false →
        NumberValidator.validate nv v = .error (.typeError v "an int or float")) := by
  constructor
  · simp only [NumberValidator.validate]
    rw [bind_eq_ok_iff, checkMinvalue_ok, checkMaxvalue_ok]
  · intro h
    cases v <;> simp_all [Value.isNum, NumberValidator.validate]

theorem numberValidator_validate_spec_witness :
    NumberValidator.validate ⟨some (-100), some 100⟩ (Value.num (-100)) = .ok ()
    ∧ NumberValidator.validate ⟨some (-100), some 100⟩ (Value.str "x")
        = .error (.typeError (Value.str "x") "an int or float") := by
  constructor
  · exact ((numberValidator_validate_spec ⟨some (-100), some 100⟩ (-100)
      (Value.str "x")).1).mpr (by norm_num)
  · exact (numberValidator_validate_spec ⟨some (-100), some 100⟩ (-100)
      (Value.str "x")).2 rfl

/-- C8: NumberValidator.validate checks the type first, then the minimum,
then the maximum, and the first failing check determines the error: a
non-numeric value gets the TypeError whatever the bounds are, and a numeric
value below a configured minimum gets the minimum ValueError whatever the
maximum is. -/
theorem numberValidator_error_order (nv : NumberValidator) (v : Value) (q m : ℚ) :
    (v.isNum = false →
      NumberValidator.validate nv v = .error (.typeError v "an int or float"))
    ∧ (nv.minvalue = some m → q < m →
      NumberValidator.validate nv (.num q)
        = .error (.valueError (.num q) (.atLeast m))) := by
  constructor
  · intro h
    cases v <;> simp_all [Value.isNum, NumberValidator.validate]
  · intro hmin hq
    simp [NumberValidator.validate, checkMinvalue, hmin, hq, bind_err]

theorem numberValidator_error_order_witness :
    NumberValidator.validate ⟨some 5, some 3⟩ (Value.str "a")
      = .error (.typeError (Value.str "a") "an int or float")
    ∧ NumberValidator.validate ⟨some 5, some 3⟩ (Value.num 4)
      = .error (.valueError (Value.num 4) (.atLeast 5)) := by
  constructor
  · exact (numberValidator_error_order ⟨some 5, some 3⟩ (Value.str "a") 4 5).1 rfl
  · exact (numberValidator_error_order ⟨some 5, some 3⟩ (Value.str "a") 4 5).2 rfl
      (by norm_num)

/-- C6: for a string value, StringValidator.validate passes exactly when
the length is at least the configured minsize (if any), at most the
configured maxsize (if any), and the configured predicate (if any) holds;
a non-string value always fails with a TypeError. -/
theorem stringValidator_validate_spec (sv : StringValidator) (s : String) (v : Value) :
    (StringValidator.validate sv (.str s) = .ok () ↔
      (∀ m ∈ sv.minsize, m ≤ (s.length : ℤ))
      ∧ (∀ m ∈ sv.maxsize, (s.length : ℤ) ≤ m)
      ∧ (∀ p ∈ sv.predicate, p s = true))
    ∧ (v.isStr = false →
        StringValidator.validate sv v = .error (.typeError v "a str")) := by
  constructor
  · simp only [StringValidator.validate]
    rw [bind_eq_ok_iff, bind_eq_ok_iff, checkMinsize_ok, checkMaxsize_ok,
      checkPredicateStr_ok]
  · intro h
    cases v <;> simp_all [Value.isStr, StringValidator.validate]

theorem stringValidator_validate_spec_witness :
    StringValidator.validate ⟨some 2, some 6, some (fun s => s == "abc")⟩
        (Value.str "abc") = .ok ()
    ∧ StringValidator.validate ⟨some 2, some 6, some (fun s => s == "abc")⟩
        (Value.num 123) = .error (.typeError (Value.num 123) "a str") := by
  constructor
  · exact ((stringValidator_validate_spec ⟨some 2, some 6, some (fun s => s == "abc")⟩
      "abc" (Value.num 123)).1).mpr (by refine ⟨?_, ?_, ?_⟩ <;> simp <;> decide)
  · exact (stringValidator_validate_spec ⟨some 2, some 6, some (fun s => s == "abc")⟩
      "abc" (Value.num 123)).2 rfl

/-- C7: a string or Path value whose filesystem path does not exist makes
PathValidator.validate fail with a FileExistsError, whatever predicate or
suffixes are configured (for a Path value, the error is raised by the
recursive call on the text form, so it carries the str value). -/
theorem pathValidator_absent_path (pv : PathValidator) (fs : String → Bool)
    (s : String) (h : fs s = false) :
    PathValidator.validate pv fs (.str s) = .error (.fileExistsError (.str s))
    ∧ PathValidator.validate pv fs (.path s) = .error (.fileExistsError (.str s)) := by
  have h1 : PathValidator.validate pv fs (.str s)
      = .error (.fileExistsError (.str s)) := by
    simp [PathValidator.validate, checkExists, Value.text, h, bind_err]
  refine ⟨h1, ?_⟩
  simp [PathValidator.validate, checkExists, Value.text, h, bind_err]

theorem pathValidator_absent_path_witness :
    PathValidator.validate ⟨[".py"], some (fun _ => false)⟩ (fun _ => false)
        (Value.str "missing.py")
      = .error (.fileExistsError (Value.str "missing.py"))
    ∧ PathValidator.validate ⟨[".py"], some (fun _ => false)⟩ (fun _ => false)
        (Value.path "missing.py")
      = .error (.fileExistsError (Value.str "missing.py")) :=
  pathValidator_absent_path ⟨[".py"], some (fun _ => false)⟩ (fun _ => false)
    "missing.py" rfl

theorem checkExists_ne_rec (fs : String → Bool) (v : Value) :
    checkExists fs v ≠ .error .recursionError := by
  unfold checkExists; split_ifs <;> simp

theorem checkPredicatePath_ne_rec (pred : Option (Value → Bool)) (v : Value) :
    checkPredicatePath pred v ≠ .error .recursionError := by
  rcases pred with _ | p
  · simp [checkPredicatePath]
  · cases hp : p v <;> simp [checkPredicatePath, hp]

theorem checkSuffixes_ne_rec (sfx : List String) (v : Value) :
    checkSuffixes sfx v ≠ .error .recursionError := by
  unfold checkSuffixes; split_ifs <;> simp

theorem chain_ne_rec (fs : String → Bool) (pred : Option (Value → Bool))
    (sfx : List String) (v : Value) :
    (checkExists fs v >>= fun _ => checkPredicatePath pred v >>= fun _ =>
      checkSuffixes sfx v) ≠ (Except.error PyErr.recursionError : Except PyErr Unit) := by
  intro hcon
  rcases bind_eq_error _ _ _ hcon with h1 | h2
  · exact checkExists_ne_rec fs v h1
  · rcases bind_eq_error _ _ _ h2 with h3 | h4
    · exact checkPredicatePath_ne_rec pred v h3
    · exact checkSuffixes_ne_rec sfx v h4

theorem validate_ne_rec (pv : PathValidator) (fs : String → Bool) (v : Value) :
    PathValidator.validate pv fs v ≠ .error .recursionError := by
  cases v with
  | num q => simp [PathValidator.validate]
  | other => simp [PathValidator.validate]
  | str s =>
    have h := chain_ne_rec fs pv.predicate pv.suffixes (.str s)
    intro hcon
    apply h
    rw [← hcon]
    simp [PathValidator.validate]
  | path p =>
    intro hcon
    simp only [PathValidator.validate] at hcon
    rcases bind_eq_error _ _ _ hcon with h1 | h2
    · exact chain_ne_rec fs pv.predicate pv.suffixes (.str p) h1
    · exact chain_ne_rec fs pv.predicate pv.suffixes (.path p) h2

/-- C9: Path values are re-validated through their text form with recursion
depth at most one: a call-stack budget of 2 frames is enough for every
input (the fuel-instrumented run agrees with the total recursion-free
function), and validate never ends in the RecursionError of an exhausted
stack. -/
theorem pathValidator_single_level_recursion (pv : PathValidator)
    (fs : String → Bool) (v : Value) (n : Nat) :
    PathValidator.validateFuel pv fs (n + 2) v = PathValidator.validate pv fs v
    ∧ PathValidator.validate pv fs v ≠ .error .recursionError :=
  ⟨validateFuel_eq_validate pv fs v n, validate_ne_rec pv fs v⟩

theorem pathValidator_single_level_recursion_witness :
    PathValidator.validateFuel ⟨[], none⟩ (fun _ => true) 2 (Value.path "p")
      = PathValidator.validate ⟨[], none⟩ (fun _ => true) (Value.path "p")
    ∧ PathValidator.validate ⟨[], none⟩ (fun _ => true) (Value.path "p")
      ≠ .error .recursionError :=
  pathValidator_single_level_recursion ⟨[], none⟩ (fun _ => true) (Value.path "p") 0

/-- C1: code bug. A PathValidator constructed with no suffixes rejects
every value: self.suffixes = set() is not None, so the suffix check always
runs and no extension is a member of the empty set. Here "a.py" exists on
the modelled filesystem and no predicate is configured, yet validate
raises ValueError instead of passing. -/
theorem pathValidator_empty_suffixes_rejects :
    PathValidator.validate ⟨[], none⟩ (fun s => s == "a.py") (Value.str "a.py")
      = .error (.valueError (Value.str "a.py") (.suffixNotIn [])) := by
  rw [← validateFuel_eq_validate ⟨[], none⟩ (fun s => s == "a.py") (Value.str "a.py") 0]
  rfl

/-- C3: when the bound rule rejects the candidate value, Validator.__set__
propagates that error and leaves the attribute dictionary untouched, so a
previously stored backing value is still read back afterwards. -/
theorem descriptor_failing_set_preserves (validate : Value → Except PyErr Unit)
    (name : String) (obj : Obj) (value : Value) (e : PyErr)
    (h : validate value = .error e) :
    Validator.descrSet validate name obj value = (some e, obj)
    ∧ ∀ w, obj (private_name name) = some w →
        Validator.descrGet name (Validator.descrSet validate name obj value).2
          = .ok w := by
  have hset : Validator.descrSet validate name obj value = (some e, obj) := by
    unfold Validator.descrSet
    rw [h]
  refine ⟨hset, ?_⟩
  intro w hw
  rw [hset]
  simp [Validator.descrGet, hw]

theorem descriptor_failing_set_preserves_witness :
    Validator.descrSet (OneOf.validate ⟨[]⟩) "x"
        (fun a => if a = private_name "x" then some (Value.str "w") else none)
        (Value.str "bad")
      = (some (.valueError (Value.str "bad") (.oneOf [])),
          fun a => if a = private_name "x" then some (Value.str "w") else none)
    ∧ Validator.descrGet "x"
        (Validator.descrSet (OneOf.validate ⟨[]⟩) "x"
          (fun a => if a = private_name "x" then some (Value.str "w") else none)
          (Value.str "bad")).2
      = .ok (Value.str "w") := by
  have h := descriptor_failing_set_preserves (OneOf.validate ⟨[]⟩) "x"
    (fun a => if a = private_name "x" then some (Value.str "w") else none)
    (Value.str "bad") (.valueError (Value.str "bad") (.oneOf [])) rfl
  exact ⟨h.1, h.2 (Value.str "w") (by simp)⟩

/-- C4: when the bound rule accepts the candidate value, Validator.__set__
stores it without error and Validator.__get__ then returns exactly the
stored value; reading is a pure projection of the backing slot, with no
validation involved. -/
theorem descriptor_roundtrip (validate : Value → Except PyErr Unit)
    (name : String) (obj : Obj) (value : Value)
    (h : validate value = .ok ()) :
    (Validator.descrSet validate name obj value).1 = none
    ∧ Validator.descrGet name (Validator.descrSet validate name obj value).2
        = .ok value
    ∧ ∀ (obj2 : Obj) (w : Value), obj2 (private_name name) = some w →
        Validator.descrGet name obj2 = .ok w := by
  have hset : Validator.descrSet validate name obj value
      = (none, setattr obj (private_name name) value) := by
    unfold Validator.descrSet
    rw [h]
  refine ⟨by rw [hset], ?_, ?_⟩
  · rw [hset]
    simp [Validator.descrGet, setattr]
  · intro obj2 w hw
    simp [Validator.descrGet, hw]

theorem descriptor_roundtrip_witness :
    (Validator.descrSet (OneOf.validate ⟨[Value.str "w"]⟩) "x" (fun _ => none)
        (Value.str "w")).1 = none
    ∧ Validator.descrGet "x"
        (Validator.descrSet (OneOf.validate ⟨[Value.str "w"]⟩) "x" (fun _ => none)
          (Value.str "w")).2
      = .ok (Value.str "w") := by
  have h := descriptor_roundtrip (OneOf.validate ⟨[Value.str "w"]⟩) "x"
    (fun _ => none) (Value.str "w") (by rfl)
  exact ⟨h.1, h.2.1⟩

/-- C10: reading a validated field before any successful write raises an
AttributeError, because the private backing attribute does not exist yet;
a failing write does not create it. -/
theorem descriptor_get_before_first_write (name : String) (obj : Obj)
    (h : obj (private_name name) = none) :
    Validator.descrGet name obj = .error (.attributeError (private_name name))
    ∧ ∀ (validate : Value → Except PyErr Unit) (v : Value) (e : PyErr),
        validate v = .error e →
          (Validator.descrSet validate name obj v).2 (private_name name) = none := by
  constructor
  · simp [Validator.descrGet, h]
  · intro validate v e hv
    unfold Validator.descrSet
    rw [hv]
    exact h

theorem descriptor_get_before_first_write_witness :
    Validator.descrGet "x" (fun _ => none)
      = .error (.attributeError (private_name "x"))
    ∧ (Validator.descrSet (OneOf.validate ⟨[]⟩) "x" (fun _ => none)
        (Value.str "v")).2 (private_name "x") = none := by
  have h := descriptor_get_before_first_write "x" (fun _ => none) rfl
  exact ⟨h.1, h.2 (OneOf.validate ⟨[]⟩) (Value.str "v")
    (.valueError (Value.str "v") (.oneOf [])) rfl⟩

end Validators
